import Mathlib

/-!
Shallow embedding of the Millennium BLE proxy firmware
(`tools/dev-tools/proxies/firmware/millennium/src`), covering the protocol
codec (`protocol.c`, `protocol.h`), the central and peripheral BLE links
(`ble_central.c`, `ble_peripheral.c`) and the relay coordinator in `main.c`.

Bytes are modelled as `Nat` values (the C code works on `uint8_t`, so byte
inputs are below 256; masking with `& 0x7F` is written `% 128`).  Byte
buffers and the text messages built with `snprintf` are modelled as
`List Nat` of byte values.  Radio-link side effects (console logging, GATT
writes and notifications, scan requests) are modelled as explicit events.
-/

set_option maxRecDepth 8000
set_option linter.unusedVariables false
set_option linter.unnecessarySimpa false

namespace MillenniumProxy

/-- Byte values of an ASCII string literal (text fragments written by `snprintf`). -/
def ascii (s : String) : List Nat :=
  s.data.map Char.toNat

/-- Decimal rendering of a number, as written by `snprintf` for `%d` / `%zu`. -/
def decFmt (n : Nat) : List Nat :=
  ascii (Nat.repr n)

/-- Lowercase hex digit of a value below 16, as written by `%x`. -/
def hexDigit (n : Nat) : Nat :=
  if n < 10 then 48 + n else 87 + n

/-- Two lowercase hex digits of a byte, as written by `%02x`. -/
def hex2 (b : Nat) : List Nat :=
  [hexDigit (b / 16 % 16), hexDigit (b % 16)]

/-- C `isprint` over the ASCII range: printable characters are 0x20..0x7E. -/
def isprint (c : Nat) : Bool :=
  decide (32 ≤ c ∧ c ≤ 126)

/-- `millennium_crc` (protocol.h): XOR of all bytes of the buffer. -/
def millennium_crc (data : List Nat) : Nat :=
  data.foldl (fun crc b => crc ^^^ b) 0

/-- `protocol_validate_crc` (protocol.c): false for fewer than 2 bytes,
otherwise the XOR of all bytes but the last must equal the last byte. -/
def protocol_validate_crc (data : List Nat) : Bool :=
  if data.length < 2 then false
  else decide (millennium_crc (data.take (data.length - 1)) = data.getD (data.length - 1) 0)

/-- Traffic direction tag (`traffic_dir_t`). -/
inductive Dir where
  | appToBoard
  | boardToApp
deriving DecidableEq, Repr

/-- One rank line of the 8x8 board rendering in the `'s'` branch of
`protocol_decode_and_log`: `"    %d: "` with `rank + 1`, then the eight
square characters (`data[rank*8+file+1] & 0x7F` followed by a space),
then a newline. -/
def rankLine (data : List Nat) (rank : Nat) : List Nat :=
  ascii "    " ++ decFmt (rank + 1) ++ ascii ": " ++
    ((List.range 8).flatMap (fun file => [data.getD (rank * 8 + file + 1) 0 % 128, 32])) ++
    [10]

/-- Full board-state message for a response of at least 66 bytes: header,
ranks 7 down to 0 (printed as 8 down to 1), then the file footer. -/
def boardGridMsg (data : List Nat) : List Nat :=
  ascii "RESP: BOARD STATE\n" ++
    (((List.range 8).reverse).flatMap (fun rank => rankLine data rank)) ++
    ascii "       a b c d e f g h"

/-- Fallback board-state message `"RESP: BOARD STATE (%zu bytes, expected 66)"`. -/
def boardShortMsg (len : Nat) : List Nat :=
  ascii "RESP: BOARD STATE (" ++ decFmt len ++ ascii " bytes, expected 66)"

/-- File letter of the LED-set rendering: `'a' + file - 1` when `1 ≤ file ≤ 8`,
`'?'` otherwise. -/
def ledFileChar (file : Nat) : Nat :=
  if 1 ≤ file ∧ file ≤ 8 then 96 + file else 63

/-- LED-set message `"CMD: LED square=%d (%c%d) state=%c"` with
`file = square % 9` and `rank = square / 9`. -/
def ledMsg (square state : Nat) : List Nat :=
  ascii "CMD: LED square=" ++ decFmt square ++ ascii " (" ++
    [ledFileChar (square % 9)] ++ decFmt (square / 9) ++ ascii ") state=" ++ [state]

/-- Version-response message of the `'v'` branch: for more than 2 bytes, the
payload bytes (parity stripped, at most 63 of them) are shown as a string;
`%s` stops at the first NUL byte. -/
def versionMsg (data : List Nat) : List Nat :=
  if 2 < data.length then
    ascii "RESP: VERSION = \"" ++
      (((((data.drop 1).take (data.length - 2)).take 63).map (fun b => b % 128)).takeWhile
        (fun c => c != 0)) ++
      ascii "\""
  else ascii "RESP: VERSION (empty)"

/-- Hex-dump loop of the non-ASCII fallback: `"%02x "` per byte while the
write position stays below `sizeof(msg) - 4 = 252`. -/
def rawHexLoop (bytes : List Nat) (pos : Nat) : List Nat :=
  match bytes with
  | [] => []
  | b :: rest => if pos < 252 then hex2 b ++ [32] ++ rawHexLoop rest (pos + 3) else []

/-- Non-ASCII fallback message `"RAW[%zu]: "` followed by the hex dump. -/
def rawHexMsg (data : List Nat) : List Nat :=
  ascii "RAW[" ++ decFmt data.length ++ ascii "]: " ++
    rawHexLoop data (ascii "RAW[" ++ decFmt data.length ++ ascii "]: ").length

/-- One payload element of the unknown-command rendering: the character when
printable after parity stripping, otherwise `"\x%02x"` of the raw byte. -/
def unknownPiece (b : Nat) : List Nat :=
  if isprint (b % 128) then [b % 128] else ascii "\\x" ++ hex2 b

/-- Payload loop of the unknown-command rendering, tracking the write
position; iterates while the position stays below 252. -/
def unknownLoop (bytes : List Nat) (pos : Nat) : List Nat × Nat :=
  match bytes with
  | [] => ([], pos)
  | b :: rest =>
    if pos < 252 then
      let piece := unknownPiece b
      let r := unknownLoop rest (pos + piece.length)
      (piece ++ r.1, r.2)
    else ([], pos)

/-- Unknown-command message: annotated command byte, payload as ASCII or
escaped hex, and a closing bracket (written only if it still fits). -/
def unknownMsg (cmd : Nat) (data : List Nat) : List Nat :=
  let pre :=
    if isprint cmd then
      ascii "CMD: '" ++ [cmd] ++ ascii "' (0x" ++ hex2 cmd ++ ascii ") ["
    else
      ascii "CMD: 0x" ++ hex2 cmd ++ ascii " ["
  let r := unknownLoop data pre.length
  pre ++ r.1 ++ (if r.2 + 1 < 256 then [93] else [])

/-- Dispatch of `protocol_decode_and_log` on the parity-stripped command
byte (`data[0] & 0x7F`), translated branch by branch from the C switch. -/
def decodeMsgCmd (cmd : Nat) (data : List Nat) : List Nat :=
  if isprint cmd = false ∧ cmd ≠ 13 ∧ cmd ≠ 10 then rawHexMsg data
  else if cmd = 86 then ascii "CMD: VERSION request"
  else if cmd = 118 then versionMsg data
  else if cmd = 83 then ascii "CMD: BOARD STATE request"
  else if cmd = 115 then
    if 66 ≤ data.length then boardGridMsg data else boardShortMsg data.length
  else if cmd = 76 then
    if 3 ≤ data.length then ledMsg (data.getD 1 0 % 128) (data.getD 2 0 % 128)
    else ascii "CMD: LED (incomplete)"
  else if cmd = 88 then ascii "CMD: ALL LEDs OFF"
  else if cmd = 82 then ascii "CMD: RESET"
  else if cmd = 114 then ascii "RESP: ACK"
  else if cmd = 66 then ascii "CMD: BEEP"
  else if cmd = 87 then ascii "CMD: SCAN ON (enable board scanning)"
  else if cmd = 73 then ascii "CMD: SCAN OFF (disable board scanning)"
  else unknownMsg cmd data

/-- Message built by `protocol_decode_and_log` for a non-empty buffer. -/
def decodeMsg (data : List Nat) : List Nat :=
  decodeMsgCmd (data.headD 0 % 128) data

/-- `protocol_decode_and_log` (protocol.c): returns the single message handed
to `usb_console_log_decoded`, or `none` when the input is empty (the C
function returns immediately without logging anything). -/
def protocol_decode_and_log (dir : Dir) (data : List Nat) : Option (List Nat) :=
  match data with
  | [] => none
  | _ :: _ => some (decodeMsg data)

/-- Flip bit `k` of the byte at index `i` of a buffer. -/
def flipBit (l : List Nat) (i k : Nat) : List Nat :=
  l.set i (l.getD i 0 ^^^ 2 ^ k)

/-! ## Observable radio-link and console events

The firmware's side effects are modelled as events: console output
(`usb_console_log_*`, Zephyr log warnings) and calls into the radio-link
capability (GATT write without response, GATT notify, scan start). -/

/-- Observable side effects of the relay. -/
inductive Event where
  | logDecoded : Dir → List Nat → Event
  | logTraffic : Dir → List Nat → Event
  | logStatus : List Nat → Event
  | logWarn : List Nat → Event
  | centralSendCall : List Nat → Event
  | gattWrite : Nat → List Nat → Event
  | gattNotify : List Nat → Event
  | scanStart : List Char → Event
deriving DecidableEq, Repr

/-- Result of a send / scan entry point (C `int` return values:
`0`, `-ENOTCONN`, `-EINVAL`, or an error forwarded from the capability). -/
inductive CRes where
  | ok
  | notConn
  | inval
  | capFail
deriving DecidableEq, Repr

/-- Return value of a GATT subscription callback
(`BT_GATT_ITER_STOP` / `BT_GATT_ITER_CONTINUE`). -/
inductive GattIter where
  | stop
  | cont
deriving DecidableEq, Repr

/-- Module-level state of `ble_central.c`: connection reference, the
`connected` and `subscribed` flags, the three discovered GATT handles
(0 = unresolved) and the stored scan name filter (`char[32]`, so at most
31 characters; the empty list models the empty C string). -/
structure CentralState where
  real_board_conn : Option Nat
  connected : Bool
  subscribed : Bool
  tx_handle : Nat
  tx_ccc_handle : Nat
  rx_handle : Nat
  target_name_filter : List Char
deriving DecidableEq, Repr

/-- `ble_central_is_connected`: connected and subscribed. -/
def ble_central_is_connected (s : CentralState) : Bool :=
  s.connected && s.subscribed

/-- `ble_central_send`: guards, raw traffic log, then the unacknowledged
GATT write.  `writeOk` models the immediate result of
`bt_gatt_write_without_response`. -/
def ble_central_send (s : CentralState) (data : List Nat) (writeOk : Bool) :
    CRes × List Event :=
  if s.connected = false ∨ s.real_board_conn = none then
    (CRes.notConn, [Event.logWarn (ascii "Not connected to real board")])
  else if s.rx_handle = 0 then
    (CRes.inval, [Event.logWarn (ascii "RX handle not discovered")])
  else
    ((if writeOk then CRes.ok else CRes.capFail),
      [Event.logTraffic Dir.appToBoard data, Event.gattWrite s.rx_handle data])

/-- Events produced by one `protocol_decode_and_log` call. -/
def decodeEvents (dir : Dir) (data : List Nat) : List Event :=
  match protocol_decode_and_log dir data with
  | none => []
  | some m => [Event.logDecoded dir m]

/-- `on_data_from_app` (main.c): decode-and-log, then forward to the real
board when the central link reports connected, otherwise warn and drop.
The `centralSendCall` event marks the invocation of `ble_central_send`. -/
def on_data_from_app (s : CentralState) (data : List Nat) (writeOk : Bool) :
    List Event :=
  decodeEvents Dir.appToBoard data ++
    (if ble_central_is_connected s then
      Event.centralSendCall data ::
        ((ble_central_send s data writeOk).2 ++
          (if (ble_central_send s data writeOk).1 = CRes.ok then []
           else [Event.logWarn (ascii "Failed to forward to board")]))
     else [Event.logWarn (ascii "Board not connected, dropping app data")])

/-- Number of `ble_central_send` invocations recorded in an event trace. -/
def countSendCalls (evs : List Event) : Nat :=
  (evs.filter (fun e =>
    match e with
    | Event.centralSendCall _ => true
    | _ => false)).length

/-- `notify_callback` (ble_central.c): a NULL payload clears `subscribed`
and stops the subscription iteration; otherwise the raw traffic is logged
and the registered callback is invoked.  `rxEvents` models the events of
the registered `rx_callback`. -/
def notify_callback (s : CentralState) (payload : Option (List Nat))
    (rxEvents : List Nat → List Event) : CentralState × List Event × GattIter :=
  match payload with
  | none =>
    ({ s with subscribed := false },
      [Event.logWarn (ascii "Unsubscribed from TX notifications")], GattIter.stop)
  | some d =>
    (s, Event.logTraffic Dir.boardToApp d :: rxEvents d, GattIter.cont)

/-- `ble_central_start_scan`: no-op when already connected; otherwise the
name filter is stored (`strncpy` with at most 31 characters) and a scan is
requested.  `scanOk` models the immediate result of `bt_le_scan_start`;
the `scanStart` event carries the filter in effect for the scan. -/
def ble_central_start_scan (s : CentralState) (target_name : Option (List Char))
    (scanOk : Bool) : CentralState × CRes × List Event :=
  if s.connected then
    (s, CRes.ok, [Event.logWarn (ascii "Already connected, not scanning")])
  else
    let s1 : CentralState :=
      { s with target_name_filter :=
          match target_name with
          | some n => n.take 31
          | none => [] }
    if scanOk then
      (s1, CRes.ok,
        [Event.scanStart s1.target_name_filter,
         Event.logStatus (ascii "Scanning for real Millennium board...")])
    else
      (s1, CRes.capFail, [Event.scanStart s1.target_name_filter])

/-- `disconnected_callback` (ble_central.c): log, drop the connection
reference, clear both flags and all three discovered handles, then restart
scanning with the stored filter (NULL when the stored filter is empty). -/
def disconnected_callback (s : CentralState) (reason : Nat) (scanOk : Bool) :
    CentralState × List Event :=
  let s1 : CentralState :=
    { s with real_board_conn := none, connected := false, subscribed := false,
             tx_handle := 0, tx_ccc_handle := 0, rx_handle := 0 }
  let r := ble_central_start_scan s1
      (if s.target_name_filter = [] then none else some s.target_name_filter) scanOk
  (r.1,
    Event.logStatus
        (ascii "Disconnected from real board (reason: " ++ decFmt reason ++ ascii ")")
      :: r.2.2)

/-- Module-level state of `ble_peripheral.c`: app connection reference,
`connected` flag, the cached TX-notification CCC flag, and the cached
characteristic read buffers (`config_value`, `tx_value` of at most 244
bytes together with its length). -/
structure PeripheralState where
  app_conn : Option Nat
  connected : Bool
  tx_notifications_enabled : Bool
  config_value : List Nat
  tx_value : List Nat
deriving DecidableEq, Repr

/-- `ble_peripheral_is_connected`: connected and notifications enabled. -/
def ble_peripheral_is_connected (s : PeripheralState) : Bool :=
  s.connected && s.tx_notifications_enabled

/-- `ble_peripheral_send`: guards, cache the value for reads (truncated to
the 244-byte buffer), then notify the app.  `notifyOk` models the immediate
result of `bt_gatt_notify`. -/
def ble_peripheral_send (s : PeripheralState) (data : List Nat) (notifyOk : Bool) :
    PeripheralState × CRes × List Event :=
  if s.connected = false ∨ s.app_conn = none then
    (s, CRes.notConn, [Event.logWarn (ascii "No app connected")])
  else if s.tx_notifications_enabled = false then
    (s, CRes.inval, [Event.logWarn (ascii "TX notifications not enabled")])
  else
    ({ s with tx_value := data.take 244 },
      (if notifyOk then CRes.ok else CRes.capFail),
      [Event.gattNotify data])

/-! ## CRC algebra -/

theorem crc_foldl_init (l : List Nat) (i : Nat) :
    l.foldl (fun a b => a ^^^ b) i = i ^^^ millennium_crc l := by
  induction l generalizing i with
  | nil => simp [millennium_crc]
  | cons a t ih =>
    simp only [millennium_crc, List.foldl_cons]
    rw [ih (i ^^^ a), ih (0 ^^^ a)]
    simp [Nat.xor_assoc]

theorem crc_cons (a : Nat) (l : List Nat) :
    millennium_crc (a :: l) = a ^^^ millennium_crc l := by
  simp only [millennium_crc, List.foldl_cons]
  rw [crc_foldl_init]
  simp [millennium_crc]

theorem crc_flipBit (l : List Nat) (i k : Nat) (h : i < l.length) :
    millennium_crc (flipBit l i k) = millennium_crc l ^^^ 2 ^ k := by
  induction l generalizing i with
  | nil => simp at h
  | cons a t ih =>
    cases i with
    | zero =>
      simp only [flipBit, List.set_cons_zero, List.getD_cons_zero, crc_cons]
      rw [Nat.xor_assoc, Nat.xor_assoc, Nat.xor_comm (2 ^ k)]
    | succ j =>
      have hj : j < t.length := by simpa using h
      simp only [flipBit, List.set_cons_succ, List.getD_cons_succ, crc_cons]
      have := ih j hj
      simp only [flipBit] at this
      rw [this, Nat.xor_assoc]

theorem xor_two_pow_ne (x k : Nat) : x ^^^ 2 ^ k ≠ x := by
  intro h
  have h2 : x ^^^ (x ^^^ 2 ^ k) = x ^^^ x := by rw [h]
  rw [← Nat.xor_assoc, Nat.xor_self, Nat.zero_xor] at h2
  exact (Nat.two_pow_pos k).ne' h2

theorem getD_append_length (b : List Nat) (c d : Nat) :
    (b ++ [c]).getD b.length d = c := by
  induction b with
  | nil => rfl
  | cons a t ih => simpa using ih

/-- On a frame `b ++ [c]` with non-empty `b`, CRC validation compares the
XOR of `b` with the trailing byte `c`. -/
theorem validate_append_last (b : List Nat) (c : Nat) (hb : b ≠ []) :
    protocol_validate_crc (b ++ [c]) = decide (millennium_crc b = c) := by
  have hpos : 0 < b.length := List.length_pos.mpr hb
  unfold protocol_validate_crc
  have hlen : (b ++ [c]).length = b.length + 1 := by simp
  rw [hlen]
  have h2 : ¬ (b.length + 1 < 2) := by omega
  rw [if_neg h2]
  simp only [Nat.add_sub_cancel]
  rw [List.take_left, getD_append_length]

/-! ## Claim theorems: checksum (C5, C2) -/

/-- Claim C5: `protocol_validate_crc` returns false for every byte sequence
shorter than 2 bytes; for every sequence of length at least 2 it returns
true exactly when the last byte equals the XOR of all preceding bytes. -/
theorem validate_crc_spec (l : List Nat) :
    (l.length < 2 → protocol_validate_crc l = false) ∧
    (2 ≤ l.length →
      (protocol_validate_crc l = true ↔
        l.getLast? = some (millennium_crc l.dropLast))) := by
  constructor
  · intro h
    simp [protocol_validate_crc, h]
  · intro h
    have hne : l ≠ [] := by
      intro hnil
      rw [hnil] at h
      simp at h
    obtain ⟨b, c, rfl⟩ : ∃ b c, l = b ++ [c] := by
      rcases List.eq_nil_or_concat l with hnil | ⟨b, c, hbc⟩
      · exact absurd hnil hne
      · exact ⟨b, c, by rw [hbc, List.concat_eq_append]⟩
    have hb : b ≠ [] := by
      intro hbnil
      rw [hbnil] at h
      simp at h
    rw [validate_append_last b c hb]
    simp [List.getLast?_concat, List.dropLast_concat, eq_comm]

/-- Claim C5 witness. -/
theorem validate_crc_spec_witness :
    protocol_validate_crc [7] = false ∧
    (protocol_validate_crc [1, 2, 3] = true ↔
      ([1, 2, 3] : List Nat).getLast? =
        some (millennium_crc ([1, 2, 3] : List Nat).dropLast)) :=
  ⟨(validate_crc_spec [7]).1 (by decide), (validate_crc_spec [1, 2, 3]).2 (by decide)⟩

/-- Claim C2 counterexample: for the empty byte sequence `b`, the checksum
is 0 and `protocol_validate_crc (b ++ [checksum])` is false (the frame is
a single byte, below the length-2 minimum), so the claim's round-trip does
not hold for every byte sequence. -/
theorem crc_empty_roundtrip_fails :
    millennium_crc [] = 0 ∧
    protocol_validate_crc ([] ++ [millennium_crc []]) = false := by
  constructor
  · rfl
  · decide

/-- Claim C2 (amended): for every non-empty byte sequence `b` with checksum
`c = XOR(b)`, `protocol_validate_crc (b ++ [c])` is true, and flipping any
single bit of any byte of `b`, or of `c`, makes it false (for empty `b`
validation of `b ++ [c]` is already false, the frame being shorter than
2 bytes). -/
theorem crc_roundtrip_and_bitflip (b : List Nat) :
    (b ≠ [] → protocol_validate_crc (b ++ [millennium_crc b]) = true) ∧
    (∀ i k, i < b.length →
      protocol_validate_crc (flipBit b i k ++ [millennium_crc b]) = false) ∧
    (∀ k, protocol_validate_crc (b ++ [millennium_crc b ^^^ 2 ^ k]) = false) := by
  refine ⟨?_, ?_, ?_⟩
  · intro hb
    rw [validate_append_last b _ hb]
    simp
  · intro i k hi
    have hbne : b ≠ [] := by
      intro hnil
      rw [hnil] at hi
      simp at hi
    have hlenflip : (flipBit b i k).length = b.length := by simp [flipBit]
    have hflipne : flipBit b i k ≠ [] := by
      apply List.ne_nil_of_length_pos
      rw [hlenflip]
      omega
    rw [validate_append_last _ _ hflipne, crc_flipBit b i k hi]
    simp only [decide_eq_false_iff_not]
    exact xor_two_pow_ne (millennium_crc b) k
  · intro k
    by_cases hb : b = []
    · subst hb
      simp [protocol_validate_crc]
    · rw [validate_append_last _ _ hb]
      simp only [decide_eq_false_iff_not]
      intro h
      exact xor_two_pow_ne (millennium_crc b) k h.symm

/-- Claim C2 witness. -/
theorem crc_roundtrip_and_bitflip_witness :
    protocol_validate_crc ([1, 2] ++ [millennium_crc [1, 2]]) = true ∧
    protocol_validate_crc (flipBit [1, 2] 0 3 ++ [millennium_crc [1, 2]]) = false ∧
    protocol_validate_crc ([1, 2] ++ [millennium_crc [1, 2] ^^^ 2 ^ 0]) = false :=
  ⟨(crc_roundtrip_and_bitflip [1, 2]).1 (by decide),
   (crc_roundtrip_and_bitflip [1, 2]).2.1 0 3 (by decide),
   (crc_roundtrip_and_bitflip [1, 2]).2.2 0⟩

/-! ## Claim theorems: decoder (C1, C9, C10) -/

/-- The `'s'` branch of the decoder dispatch. -/
theorem decodeMsgCmd_board (data : List Nat) :
    decodeMsgCmd 115 data =
      if 66 ≤ data.length then boardGridMsg data else boardShortMsg data.length := by
  unfold decodeMsgCmd
  norm_num [isprint]

/-- The `'L'` branch of the decoder dispatch. -/
theorem decodeMsgCmd_led (data : List Nat) :
    decodeMsgCmd 76 data =
      if 3 ≤ data.length then ledMsg (data.getD 1 0 % 128) (data.getD 2 0 % 128)
      else ascii "CMD: LED (incomplete)" := by
  unfold decodeMsgCmd
  norm_num [isprint]

/-- The fallback board-state text is never the grid rendering (they differ
at byte 17: a space versus the newline after the header). -/
theorem boardShort_ne_grid (n : Nat) (data : List Nat) :
    boardShortMsg n ≠ boardGridMsg data := by
  intro h
  have hshort : (boardShortMsg n).getD 17 0 = 32 := by
    unfold boardShortMsg
    rw [List.append_assoc, List.getD_append _ _ _ _ (by decide)]
    decide
  have hgrid : (boardGridMsg data).getD 17 0 = 10 := by
    unfold boardGridMsg
    rw [List.append_assoc, List.getD_append _ _ _ _ (by decide)]
    decide
  rw [h, hgrid] at hshort
  exact absurd hshort (by decide)

/-- Claim C1 counterexample: a board-state response of length 67 (first
byte `'s'`) renders the full 8x8 grid, not the "(N bytes, expected 66)"
fallback, because the code tests `len >= 66` rather than `len == 66`. -/
theorem board_state_len67_renders_grid :
    (115 :: List.replicate 66 97).length = 67 ∧
    protocol_decode_and_log Dir.boardToApp (115 :: List.replicate 66 97) =
      some (boardGridMsg (115 :: List.replicate 66 97)) ∧
    protocol_decode_and_log Dir.boardToApp (115 :: List.replicate 66 97) ≠
      some (boardShortMsg 67) := by
  refine ⟨by decide, by decide, by decide⟩

/-- Claim C1 (amended): for a first byte that is `'s'` after clearing bit 7,
a buffer of length at least 66 renders the 8x8 board grid (ranks 8 down
to 1, files a to h), and a buffer of length 1 to 65 renders the
"(N bytes, expected 66)" fallback and never the grid. -/
theorem board_state_decode_spec (dir : Dir) (data : List Nat)
    (hcmd : data.headD 0 % 128 = 115) :
    (66 ≤ data.length →
      protocol_decode_and_log dir data = some (boardGridMsg data)) ∧
    (1 ≤ data.length → data.length < 66 →
      protocol_decode_and_log dir data = some (boardShortMsg data.length) ∧
      protocol_decode_and_log dir data ≠ some (boardGridMsg data)) := by
  cases data with
  | nil => simp at hcmd
  | cons d0 rest =>
    have hd : d0 % 128 = 115 := by simpa using hcmd
    have hdecode : protocol_decode_and_log dir (d0 :: rest) =
        some (decodeMsgCmd 115 (d0 :: rest)) := by
      simp [protocol_decode_and_log, decodeMsg, hd]
    constructor
    · intro h66
      rw [hdecode, decodeMsgCmd_board, if_pos h66]
    · intro h1 hlt
      rw [hdecode, decodeMsgCmd_board, if_neg (by omega)]
      refine ⟨rfl, ?_⟩
      intro hgrid
      simp only [Option.some.injEq] at hgrid
      exact boardShort_ne_grid _ _ hgrid

/-- Claim C1 witness. -/
theorem board_state_decode_spec_witness :
    protocol_decode_and_log Dir.boardToApp (115 :: List.replicate 65 97) =
      some (boardGridMsg (115 :: List.replicate 65 97)) ∧
    protocol_decode_and_log Dir.boardToApp [115, 97] =
      some (boardShortMsg ([115, 97] : List Nat).length) :=
  ⟨(board_state_decode_spec Dir.boardToApp (115 :: List.replicate 65 97)
      (by decide)).1 (by decide),
   ((board_state_decode_spec Dir.boardToApp [115, 97]
      (by decide)).2 (by decide) (by decide)).1⟩

/-- The LED message at square 10: file `10 % 9 = 1` is rendered `'a'` and
rank `10 / 9 = 1`. -/
theorem ledMsg_ten (st : Nat) :
    ledMsg 10 st = ascii "CMD: LED square=10 (a1) state=" ++ [st] := by
  rfl

/-- Claim C9: an LED-set frame (first byte `'L'` after clearing bit 7) of
fewer than 3 bytes renders "incomplete"; with at least 3 bytes the square
index (second byte, bit 7 cleared) is rendered with file `square % 9` and
rank `square / 9`, a file outside 1..8 renders as `'?'`, and square 10
renders file `'a'` and rank 1. -/
theorem led_decode_spec (dir : Dir) (data : List Nat)
    (hcmd : data.headD 0 % 128 = 76) :
    (data.length < 3 →
      protocol_decode_and_log dir data = some (ascii "CMD: LED (incomplete)")) ∧
    (3 ≤ data.length →
      protocol_decode_and_log dir data =
        some (ledMsg (data.getD 1 0 % 128) (data.getD 2 0 % 128))) ∧
    (∀ f, ¬ (1 ≤ f ∧ f ≤ 8) → ledFileChar f = 63) ∧
    (3 ≤ data.length → data.getD 1 0 % 128 = 10 →
      protocol_decode_and_log dir data =
        some (ascii "CMD: LED square=10 (a1) state=" ++ [data.getD 2 0 % 128])) := by
  cases data with
  | nil => simp at hcmd
  | cons d0 rest =>
    have hd : d0 % 128 = 76 := by simpa using hcmd
    have hdecode : protocol_decode_and_log dir (d0 :: rest) =
        some (decodeMsgCmd 76 (d0 :: rest)) := by
      simp [protocol_decode_and_log, decodeMsg, hd]
    refine ⟨?_, ?_, ?_, ?_⟩
    · intro h3
      rw [hdecode, decodeMsgCmd_led, if_neg (by omega)]
    · intro h3
      rw [hdecode, decodeMsgCmd_led, if_pos h3]
    · intro f hf
      unfold ledFileChar
      rw [if_neg hf]
    · intro h3 h10
      rw [hdecode, decodeMsgCmd_led, if_pos h3, h10, ledMsg_ten]

/-- Claim C9 witness. -/
theorem led_decode_spec_witness :
    protocol_decode_and_log Dir.appToBoard [76, 10] =
      some (ascii "CMD: LED (incomplete)") ∧
    protocol_decode_and_log Dir.appToBoard [76, 10, 49] =
      some (ascii "CMD: LED square=10 (a1) state=" ++ [([76, 10, 49] : List Nat).getD 2 0 % 128]) :=
  ⟨(led_decode_spec Dir.appToBoard [76, 10] (by decide)).1 (by decide),
   (led_decode_spec Dir.appToBoard [76, 10, 49] (by decide)).2.2.2 (by decide) (by decide)⟩

/-- Claim C10: the empty input produces no output at all (no decoded text,
hex dump, or fallback reaches the traffic sink), while every non-empty
input produces exactly one decoded message. -/
theorem decode_empty_spec (dir : Dir) :
    protocol_decode_and_log dir [] = none ∧
    decodeEvents dir [] = [] ∧
    (∀ data : List Nat, data ≠ [] →
      (protocol_decode_and_log dir data).isSome = true ∧
      decodeEvents dir data = [Event.logDecoded dir (decodeMsg data)]) := by
  refine ⟨rfl, rfl, ?_⟩
  intro data h
  cases data with
  | nil => exact absurd rfl h
  | cons a t => exact ⟨rfl, rfl⟩

/-- Claim C10 witness. -/
theorem decode_empty_spec_witness :
    (protocol_decode_and_log Dir.appToBoard [0]).isSome = true :=
  ((decode_empty_spec Dir.appToBoard).2.2 [0] (by decide)).1

/-! ## Claim theorems: relay and links (C3, C4, C6, C7, C8) -/

theorem countSendCalls_decodeEvents (dir : Dir) (data : List Nat) :
    countSendCalls (decodeEvents dir data) = 0 := by
  unfold decodeEvents
  cases protocol_decode_and_log dir data with
  | none => rfl
  | some m => rfl

theorem countSendCalls_append (a b : List Event) :
    countSendCalls (a ++ b) = countSendCalls a + countSendCalls b := by
  simp [countSendCalls, List.filter_append]

theorem countSendCalls_cons_sendCall (d : List Nat) (t : List Event) :
    countSendCalls (Event.centralSendCall d :: t) = countSendCalls t + 1 := by
  simp [countSendCalls, List.filter_cons]

theorem countSendCalls_centralSend (s : CentralState) (data : List Nat) (w : Bool) :
    countSendCalls (ble_central_send s data w).2 = 0 := by
  unfold ble_central_send
  by_cases h1 : s.connected = false ∨ s.real_board_conn = none
  · rw [if_pos h1]
    rfl
  · rw [if_neg h1]
    by_cases h2 : s.rx_handle = 0
    · rw [if_pos h2]
      rfl
    · rw [if_neg h2]
      rfl

/-- Claim C3: a frame from the app while the central link is not Ready
(not both connected and subscribed) is decoded-and-logged, never handed to
`ble_central_send` (zero invocations), and dropped with exactly one
"board not connected" notice; when the central link is Ready the frame is
decoded-and-logged and then forwarded via exactly one `ble_central_send`
invocation. -/
theorem relay_app_to_board_spec (s : CentralState) (data : List Nat) (writeOk : Bool) :
    (ble_central_is_connected s = false →
      on_data_from_app s data writeOk =
        decodeEvents Dir.appToBoard data ++
          [Event.logWarn (ascii "Board not connected, dropping app data")] ∧
      countSendCalls (on_data_from_app s data writeOk) = 0) ∧
    (ble_central_is_connected s = true →
      countSendCalls (on_data_from_app s data writeOk) = 1 ∧
      (∃ t, on_data_from_app s data writeOk =
        decodeEvents Dir.appToBoard data ++ Event.centralSendCall data :: t)) := by
  constructor
  · intro h
    unfold on_data_from_app
    rw [h]
    simp only [Bool.false_eq_true, if_false]
    refine ⟨by trivial, ?_⟩
    rw [countSendCalls_append, countSendCalls_decodeEvents]
    rfl
  · intro h
    unfold on_data_from_app
    rw [h]
    simp only [if_true]
    constructor
    · rw [countSendCalls_append, countSendCalls_decodeEvents,
        countSendCalls_cons_sendCall, countSendCalls_append,
        countSendCalls_centralSend]
      have hwarn : countSendCalls
          (if (ble_central_send s data writeOk).1 = CRes.ok then []
           else [Event.logWarn (ascii "Failed to forward to board")]) = 0 := by
        by_cases hc : (ble_central_send s data writeOk).1 = CRes.ok
        · rw [if_pos hc]
          rfl
        · rw [if_neg hc]
          rfl
      rw [hwarn]
    · exact ⟨_, rfl⟩

/-- Claim C3 witness. -/
theorem relay_app_to_board_spec_witness :
    countSendCalls (on_data_from_app ⟨none, false, false, 0, 0, 0, []⟩ [86, 86] true) = 0 ∧
    countSendCalls (on_data_from_app ⟨some 1, true, true, 3, 4, 5, []⟩ [86, 86] true) = 1 :=
  ⟨((relay_app_to_board_spec ⟨none, false, false, 0, 0, 0, []⟩ [86, 86] true).1 (by decide)).2,
   ((relay_app_to_board_spec ⟨some 1, true, true, 3, 4, 5, []⟩ [86, 86] true).2 (by decide)).1⟩

/-- Claim C4 counterexample: a notification whose payload is non-null but
empty does not clear `subscribed` — the central link stays Ready — because
the code only tests the payload pointer for NULL, never the length. -/
theorem notify_empty_payload_keeps_ready :
    (notify_callback ⟨some 1, true, true, 4, 5, 6, []⟩ (some []) (fun _ => [])).1.subscribed
        = true ∧
    ble_central_is_connected
        (notify_callback ⟨some 1, true, true, 4, 5, 6, []⟩ (some []) (fun _ => [])).1
      = true :=
  ⟨rfl, rfl⟩

/-- Claim C4 (amended): a notification with a null payload clears the
`subscribed` flag without touching the connection (connection reference
and `connected` flag unchanged) and stops the subscription; a notification
with any non-null payload — including the empty one — leaves the whole
central state unchanged, so Ready is preserved. -/
theorem notify_callback_spec (s : CentralState) (payload : Option (List Nat))
    (rxEvents : List Nat → List Event) :
    (payload = none →
      (notify_callback s payload rxEvents).1.subscribed = false ∧
      (notify_callback s payload rxEvents).1.connected = s.connected ∧
      (notify_callback s payload rxEvents).1.real_board_conn = s.real_board_conn ∧
      (notify_callback s payload rxEvents).2.2 = GattIter.stop) ∧
    (∀ d, payload = some d → (notify_callback s payload rxEvents).1 = s) := by
  constructor
  · rintro rfl
    exact ⟨rfl, rfl, rfl, rfl⟩
  · rintro d rfl
    rfl

/-- Claim C4 witness. -/
theorem notify_callback_spec_witness :
    (notify_callback ⟨some 1, true, true, 4, 5, 6, []⟩ none (fun _ => [])).1.subscribed
        = false ∧
    (notify_callback ⟨some 1, true, true, 4, 5, 6, []⟩ (some [1]) (fun _ => [])).1 =
      ⟨some 1, true, true, 4, 5, 6, []⟩ :=
  ⟨((notify_callback_spec ⟨some 1, true, true, 4, 5, 6, []⟩ none (fun _ => [])).1 rfl).1,
   (notify_callback_spec ⟨some 1, true, true, 4, 5, 6, []⟩ (some [1]) (fun _ => [])).2 [1] rfl⟩

/-- Claim C6: `ble_central_send` fails with the not-connected code whenever
the link is not connected (flag clear or no connection reference); whenever
the RX data handle is unresolved (zero) it fails and no GATT write is
issued; otherwise, when the capability accepts the write, it logs the raw
bytes to the traffic sink and then issues the unacknowledged write to the
resolved RX handle, reporting success. -/
theorem central_send_spec (s : CentralState) (data : List Nat) (writeOk : Bool) :
    (s.connected = false ∨ s.real_board_conn = none →
      (ble_central_send s data writeOk).1 = CRes.notConn) ∧
    (s.rx_handle = 0 →
      (ble_central_send s data writeOk).1 ≠ CRes.ok ∧
      ∀ h d, Event.gattWrite h d ∉ (ble_central_send s data writeOk).2) ∧
    (s.connected = true → s.real_board_conn ≠ none → s.rx_handle ≠ 0 → writeOk = true →
      ble_central_send s data writeOk =
        (CRes.ok, [Event.logTraffic Dir.appToBoard data,
                   Event.gattWrite s.rx_handle data])) := by
  refine ⟨?_, ?_, ?_⟩
  · intro h
    unfold ble_central_send
    rw [if_pos h]
  · intro h0
    unfold ble_central_send
    by_cases h1 : s.connected = false ∨ s.real_board_conn = none
    · rw [if_pos h1]
      exact ⟨by simp, by intro h d; simp⟩
    · rw [if_neg h1, if_pos h0]
      exact ⟨by simp, by intro h d; simp⟩
  · intro hc hconn hrx hok
    subst hok
    unfold ble_central_send
    rw [if_neg (by simp [hc, hconn]), if_neg hrx]
    rfl

/-- Claim C6 witness. -/
theorem central_send_spec_witness :
    (ble_central_send ⟨none, false, false, 0, 0, 0, []⟩ [1] true).1 = CRes.notConn ∧
    (ble_central_send ⟨some 1, true, true, 3, 4, 0, []⟩ [1] true).1 ≠ CRes.ok ∧
    ble_central_send ⟨some 1, true, true, 3, 4, 5, []⟩ [1] true =
      (CRes.ok, [Event.logTraffic Dir.appToBoard [1], Event.gattWrite 5 [1]]) :=
  ⟨(central_send_spec ⟨none, false, false, 0, 0, 0, []⟩ [1] true).1 (Or.inl rfl),
   ((central_send_spec ⟨some 1, true, true, 3, 4, 0, []⟩ [1] true).2.1 rfl).1,
   (central_send_spec ⟨some 1, true, true, 3, 4, 5, []⟩ [1] true).2.2 rfl
     (by decide) (by decide) rfl⟩

/-- Claim C7: `ble_peripheral_send` fails with the not-connected code when
no app is connected, and with the invalid-state code when the app has not
enabled TX notifications; both failure paths leave the state — including
the cached read value — unchanged.  On the remaining path it caches the
bytes (truncated to the 244-byte read buffer) and requests a notification
delivery, reporting success when the capability accepts it. -/
theorem peripheral_send_spec (s : PeripheralState) (data : List Nat) (notifyOk : Bool) :
    (s.connected = false ∨ s.app_conn = none →
      ble_peripheral_send s data notifyOk =
        (s, CRes.notConn, [Event.logWarn (ascii "No app connected")])) ∧
    (s.connected = true → s.app_conn ≠ none → s.tx_notifications_enabled = false →
      ble_peripheral_send s data notifyOk =
        (s, CRes.inval, [Event.logWarn (ascii "TX notifications not enabled")])) ∧
    (s.connected = true → s.app_conn ≠ none → s.tx_notifications_enabled = true →
      ble_peripheral_send s data notifyOk =
        ({ s with tx_value := data.take 244 },
          (if notifyOk then CRes.ok else CRes.capFail),
          [Event.gattNotify data])) := by
  refine ⟨?_, ?_, ?_⟩
  · intro h
    unfold ble_peripheral_send
    rw [if_pos h]
  · intro hc happ hen
    unfold ble_peripheral_send
    rw [if_neg (by simp [hc, happ]), if_pos hen]
  · intro hc happ hen
    unfold ble_peripheral_send
    rw [if_neg (by simp [hc, happ]), if_neg (by simp [hen])]

/-- Claim C7 witness. -/
theorem peripheral_send_spec_witness :
    ble_peripheral_send ⟨none, false, false, [], []⟩ [9] true =
      (⟨none, false, false, [], []⟩, CRes.notConn,
        [Event.logWarn (ascii "No app connected")]) ∧
    ble_peripheral_send ⟨some 1, true, false, [], []⟩ [9] true =
      (⟨some 1, true, false, [], []⟩, CRes.inval,
        [Event.logWarn (ascii "TX notifications not enabled")]) ∧
    ble_peripheral_send ⟨some 1, true, true, [], []⟩ [9] true =
      (⟨some 1, true, true, [], [9]⟩, CRes.ok, [Event.gattNotify [9]]) :=
  ⟨(peripheral_send_spec ⟨none, false, false, [], []⟩ [9] true).1 (Or.inl rfl),
   (peripheral_send_spec ⟨some 1, true, false, [], []⟩ [9] true).2.1 rfl
     (by decide) rfl,
   (peripheral_send_spec ⟨some 1, true, true, [], []⟩ [9] true).2.2 rfl
     (by decide) rfl⟩

/-- Claim C8: after a central-link disconnect all three discovered handles
are cleared to zero, the connection reference is dropped, both the
`connected` and `subscribed` flags are false, and scanning is restarted
with the same stored name filter (which the restart leaves unchanged). -/
theorem central_disconnect_spec (s : CentralState) (reason : Nat) (scanOk : Bool)
    (hlen : s.target_name_filter.length ≤ 31) :
    (disconnected_callback s reason scanOk).1.tx_handle = 0 ∧
    (disconnected_callback s reason scanOk).1.tx_ccc_handle = 0 ∧
    (disconnected_callback s reason scanOk).1.rx_handle = 0 ∧
    (disconnected_callback s reason scanOk).1.connected = false ∧
    (disconnected_callback s reason scanOk).1.subscribed = false ∧
    (disconnected_callback s reason scanOk).1.real_board_conn = none ∧
    (disconnected_callback s reason scanOk).1.target_name_filter = s.target_name_filter ∧
    Event.scanStart s.target_name_filter ∈ (disconnected_callback s reason scanOk).2 := by
  have htake : s.target_name_filter.take 31 = s.target_name_filter :=
    List.take_of_length_le hlen
  by_cases hfil : s.target_name_filter = []
  · cases scanOk <;>
      simp [disconnected_callback, ble_central_start_scan, hfil]
  · cases scanOk <;>
      simp [disconnected_callback, ble_central_start_scan, hfil, htake]

/-- Claim C8 witness. -/
theorem central_disconnect_spec_witness :
    (disconnected_callback ⟨some 1, true, true, 3, 4, 5, ['M']⟩ 19 true).1.rx_handle = 0 ∧
    (disconnected_callback ⟨some 1, true, true, 3, 4, 5, ['M']⟩ 19 true).1.target_name_filter
        = ['M'] ∧
    Event.scanStart ['M'] ∈ (disconnected_callback ⟨some 1, true, true, 3, 4, 5, ['M']⟩ 19 true).2 :=
  ⟨(central_disconnect_spec ⟨some 1, true, true, 3, 4, 5, ['M']⟩ 19 true (by decide)).2.2.1,
   (central_disconnect_spec ⟨some 1, true, true, 3, 4, 5, ['M']⟩ 19 true (by decide)).2.2.2.2.2.2.1,
   (central_disconnect_spec ⟨some 1, true, true, 3, 4, 5, ['M']⟩ 19 true (by decide)).2.2.2.2.2.2.2⟩

end MillenniumProxy
